import Mathlib

/-!
# Verification of the SVRX suggestion-box server (`src/server.js`)

The repository's single source file contains three near-identical Express
server variants (separated by document markers).  All three expose
`POST /api/feedback`, `GET /api/suggestions` and `GET /admin` over a MySQL
`suggestions` table.  This development shallowly embeds the request handlers
as pure Lean functions: the table is a `List Suggestion`, the effects of
`makeId()` and `Date.now()` are explicit parameters, and each handler
returns its HTTP response together with the table state after the request.

Variant 1 = lines 1-188, variant 2 = lines 189-377, variant 3 = lines
378-573 of `src/server.js`.
-/

/-- A JavaScript value as it can appear in a field of the parsed request
body (`req.body`).  Numbers are modelled as integers; only their
truthiness and decimal rendering matter to the code under study. -/
inductive JsValue where
  | undefined
  | null
  | str (s : String)
  | num (n : Int)
  | bool (b : Bool)
  | obj
deriving DecidableEq

/-- JavaScript truthiness: `undefined`, `null`, `''`, `0` and `false` are
falsy; objects are always truthy. -/
def jsFalsy : JsValue → Bool
  | .undefined => true
  | .null => true
  | .str s => s == ""
  | .num n => n == 0
  | .bool b => !b
  | .obj => false

/-- The JavaScript `String(v)` coercion, as used by `sanitizeString` of the
second variant. -/
def jsToString : JsValue → String
  | .undefined => "undefined"
  | .null => "null"
  | .str s => s
  | .num n => toString n
  | .bool b => if b then "true" else "false"
  | .obj => "[object Object]"

/-- JavaScript `a || b`, used by the handlers as `impact || ''` and
`extra || ''`. -/
def jsOr (a b : JsValue) : JsValue := if jsFalsy a then b else a

/-- JavaScript `String#trim`: strips whitespace from both ends.  The
whitespace class is modelled by `Char.isWhitespace` (space, tab, newline,
carriage return); the further Unicode space characters JS also strips do
not occur in the properties studied here. -/
def jsTrim (s : String) : String :=
  String.mk (((s.data.dropWhile fun c => c.isWhitespace).reverse.dropWhile
    fun c => c.isWhitespace).reverse)

/-- `sanitize` of the first and third variants (src/server.js lines 71-73
and 451-453): `typeof s === 'string' ? s.trim() : ''`. -/
def sanitize : JsValue → String
  | .str s => jsTrim s
  | _ => ""

/-- `sanitizeString` of the second variant (lines 264-267):
`if (!s) return ''; return String(s).trim();`. -/
def sanitizeString (v : JsValue) : String :=
  if jsFalsy v then "" else jsTrim (jsToString v)

/-- The replacement performed on one character by `escapeHtml`'s
`replace(/[&<>"]/g, ...)` (lines 74-77, 315-318 and 454-457). -/
def escChar (c : Char) : List Char :=
  if c = '&' then "&amp;".data
  else if c = '<' then "&lt;".data
  else if c = '>' then "&gt;".data
  else if c = '"' then "&quot;".data
  else [c]

/-- `escapeHtml`: every `&`, `<`, `>`, `"` is replaced by its entity.  The
`if (!s) return ''` guard of the source is the identity on the string
arguments it receives (the only falsy string is `''`, which this
definition also maps to `''`). -/
def escapeHtml (s : String) : String := String.mk (s.data.flatMap escChar)

/-- Accumulator recursion behind JavaScript `s.split(':')`. -/
def splitColonAux : List Char → List Char → List (List Char)
  | [], acc => [acc.reverse]
  | c :: cs, acc =>
    if c = ':' then acc.reverse :: splitColonAux cs []
    else splitColonAux cs (c :: acc)

/-- JavaScript `creds.split(':')`, as used by the `basicAuth` middleware
(lines 86-87 and 467-468). -/
def splitColon (s : String) : List (List Char) := splitColonAux s.data []

/-- Outcome of the `basicAuth` middleware: a 401 challenge, a 403 denial
(both carrying the `WWW-Authenticate` header value set by the source), or
permission to run the route handler. -/
inductive AuthResult where
  | challenge401 (wwwAuthenticate : String)
  | denied403 (wwwAuthenticate : String)
  | proceed
deriving DecidableEq

/-- The `basicAuth` middleware of the first and third variants (lines
80-91 and 460-476; the two definitions are textually identical).  The
request is modelled by the base64-decoded credential string when an
`Authorization: Basic` header is present, and by `none` when the header is
missing or does not start with `Basic `.  The source destructures
`creds.split(':')` into `[user, pass]`, so only the first two
colon-separated segments take part in the comparison (`pass` is
`undefined`, modelled by `none`, when the string holds no colon). -/
def basicAuth (adminUser adminPass : String) : Option String → AuthResult
  | none => .challenge401 "Basic realm=\"SVRX Admin\""
  | some creds =>
    let parts := splitColon creds
    if parts[0]? = some adminUser.data ∧ parts[1]? = some adminPass.data then .proceed
    else .denied403 "Basic realm=\"SVRX Admin\""

/-- A row of the `suggestions` table (`id VARCHAR(48) PRIMARY KEY, name,
email, type, message, impact, extra, created_at DATETIME`).  The column
`type` is rendered `typ` because `type` is a Lean keyword; `created_at`
is modelled as a natural-number timestamp. -/
structure Suggestion where
  id : String
  name : String
  email : String
  typ : String
  message : String
  impact : String
  extra : String
  created_at : Nat
deriving DecidableEq

/-- The body of a `POST /api/feedback` request, as destructured by
`const { name, email, type, message, impact, extra } = req.body`. -/
structure Payload where
  name : JsValue
  email : JsValue
  typ : JsValue
  message : JsValue
  impact : JsValue
  extra : JsValue
deriving DecidableEq

/-- The HTTP response of a `POST /api/feedback` handler:
`res.status(400).json({ok:false,error})`, variant 1/3's
`res.json({ok:true,id})`, or variant 2's `res.json({ok:true,item})`. -/
inductive SubmitResponse where
  | badRequest (error : String)
  | okId (id : String)
  | okItem (item : Suggestion)
deriving DecidableEq

/-- `POST /api/feedback`, first variant (lines 94-126).  `id` is the value
produced by `makeId()`, `now` the insertion timestamp `new Date()`, and
`store` the current contents of the `suggestions` table; the handler
returns its response and the table after the request. -/
def postFeedbackV1 (p : Payload) (id : String) (now : Nat) (store : List Suggestion) :
    SubmitResponse × List Suggestion :=
  let cname := sanitize p.name
  let cemail := sanitize p.email
  let ctyp := sanitize p.typ
  let cmessage := sanitize p.message
  let cimpact := sanitize (jsOr p.impact (.str ""))
  let cextra := sanitize (jsOr p.extra (.str ""))
  if cname = "" ∨ cemail = "" ∨ ctyp = "" ∨ cmessage = "" then
    (.badRequest "Missing required fields.", store)
  else if cmessage.length < 3 then
    (.badRequest "Message too short.", store)
  else
    (.okId id, store ++ [⟨id, cname, cemail, ctyp, cmessage, cimpact, cextra, now⟩])

/-- `POST /api/feedback`, second variant (lines 270-301): same checks as
the first variant but with `sanitizeString`, a longer missing-field
message, and the full normalized record in the success response. -/
def postFeedbackV2 (p : Payload) (id : String) (now : Nat) (store : List Suggestion) :
    SubmitResponse × List Suggestion :=
  let cleanName := sanitizeString p.name
  let cleanEmail := sanitizeString p.email
  let cleanType := sanitizeString p.typ
  let cleanMessage := sanitizeString p.message
  let cleanImpact := sanitizeString (jsOr p.impact (.str ""))
  let cleanExtra := sanitizeString (jsOr p.extra (.str ""))
  if cleanName = "" ∨ cleanEmail = "" ∨ cleanType = "" ∨ cleanMessage = "" then
    (.badRequest "Missing required fields (name, email, type, message).", store)
  else if cleanMessage.length < 3 then
    (.badRequest "Message too short.", store)
  else
    (.okItem ⟨id, cleanName, cleanEmail, cleanType, cleanMessage, cleanImpact, cleanExtra, now⟩,
      store ++ [⟨id, cleanName, cleanEmail, cleanType, cleanMessage, cleanImpact, cleanExtra, now⟩])

/-- `POST /api/feedback`, third variant (lines 479-509).  It checks only
for missing required fields: unlike the first two variants it has no
`message.length < 3` test, and inserts any submission whose four required
fields are non-empty after sanitization. -/
def postFeedbackV3 (p : Payload) (id : String) (now : Nat) (store : List Suggestion) :
    SubmitResponse × List Suggestion :=
  let cname := sanitize p.name
  let cemail := sanitize p.email
  let ctyp := sanitize p.typ
  let cmessage := sanitize p.message
  let cimpact := sanitize (jsOr p.impact (.str ""))
  let cextra := sanitize (jsOr p.extra (.str ""))
  if cname = "" ∨ cemail = "" ∨ ctyp = "" ∨ cmessage = "" then
    (.badRequest "Missing required fields.", store)
  else
    (.okId id, store ++ [⟨id, cname, cemail, ctyp, cmessage, cimpact, cextra, now⟩])

/-- `ORDER BY created_at DESC`: record `a` sorts no later than `b` when
`b`'s timestamp is at most `a`'s. -/
def createdDesc (a b : Suggestion) : Prop := b.created_at ≤ a.created_at

instance : DecidableRel createdDesc := fun a b => Nat.decLe b.created_at a.created_at

instance : IsTotal Suggestion createdDesc := ⟨fun a b => Nat.le_total b.created_at a.created_at⟩

instance : IsTrans Suggestion createdDesc := ⟨fun _ _ _ h1 h2 => Nat.le_trans h2 h1⟩

/-- `SELECT ... FROM suggestions ORDER BY created_at DESC LIMIT limit`:
the table rows sorted by `created_at` descending (ties in an unspecified
order), truncated to `limit` rows. -/
def listRecent (store : List Suggestion) (limit : Nat) : List Suggestion :=
  (List.insertionSort createdDesc store).take limit

/-- The `GET /api/suggestions` query, all three variants (lines 131, 306
and 514-516): `LIMIT 1000`. -/
def apiSuggestions (store : List Suggestion) : List Suggestion := listRecent store 1000

/-- The `GET /admin` query of the first variant (line 142): `LIMIT 300`. -/
def adminRowsV1 (store : List Suggestion) : List Suggestion := listRecent store 300

/-- The `GET /admin` query of the second variant (line 322): `LIMIT 200`. -/
def adminRowsV2 (store : List Suggestion) : List Suggestion := listRecent store 200

/-- The `GET /admin` query of the third variant (lines 527-529): `LIMIT 300`. -/
def adminRowsV3 (store : List Suggestion) : List Suggestion := listRecent store 300

/-- JavaScript `Array#join(sep)`. -/
def joinSep (sep : String) : List String → String
  | [] => ""
  | [x] => x
  | x :: y :: xs => x ++ sep ++ joinSep sep (y :: xs)

/-- One `<tr>` of the first variant's admin table (lines 143-154): every
cell is `escapeHtml` of a record field.  `iso` stands for the JS library
call `new Date(r.created_at).toISOString()`, which is not repository code
and is kept abstract. -/
def renderRowV1 (iso : Nat → String) (r : Suggestion) : String :=
  "\n      <tr>\n        <td>" ++ escapeHtml r.id
  ++ "</td>\n        <td>" ++ escapeHtml (iso r.created_at)
  ++ "</td>\n        <td>" ++ escapeHtml r.typ
  ++ "</td>\n        <td>" ++ escapeHtml r.impact
  ++ "</td>\n        <td>" ++ escapeHtml r.name
  ++ "</td>\n        <td>" ++ escapeHtml r.email
  ++ "</td>\n        <td style=\"white-space:pre-wrap;max-width:420px\">" ++ escapeHtml r.message
  ++ "</td>\n        <td style=\"white-space:pre-wrap;max-width:300px\">" ++ escapeHtml r.extra
  ++ "</td>\n      </tr>\n    "

/-- One `<tr>` of the second variant's admin table (lines 323-333).  The
source applies `escapeHtml(it.impact || '')` and `escapeHtml(it.extra ||
'')`; on the string-typed fields of the model `x || ''` is the identity
(the only falsy string is `''` itself). -/
def renderRowV2 (iso : Nat → String) (r : Suggestion) : String :=
  "\n      <tr>\n        <td>" ++ escapeHtml r.id
  ++ "</td>\n        <td>" ++ escapeHtml (iso r.created_at)
  ++ "</td>\n        <td>" ++ escapeHtml r.typ
  ++ "</td>\n        <td>" ++ escapeHtml r.impact
  ++ "</td>\n        <td>" ++ escapeHtml r.name
  ++ "</td>\n        <td>" ++ escapeHtml r.email
  ++ "</td>\n        <td style=\"max-width:420px;white-space:pre-wrap;\">" ++ escapeHtml r.message
  ++ "</td>\n        <td style=\"max-width:300px;white-space:pre-wrap;\">" ++ escapeHtml r.extra
  ++ "</td>\n      </tr>"

/-- One `<tr>` of the third variant's admin table (lines 530-540). -/
def renderRowV3 (iso : Nat → String) (r : Suggestion) : String :=
  "\n      <tr>\n        <td>" ++ escapeHtml r.id
  ++ "</td>\n        <td>" ++ escapeHtml (iso r.created_at)
  ++ "</td>\n        <td>" ++ escapeHtml r.typ
  ++ "</td>\n        <td>" ++ escapeHtml r.impact
  ++ "</td>\n        <td>" ++ escapeHtml r.name
  ++ "</td>\n        <td>" ++ escapeHtml r.email
  ++ "</td>\n        <td style=\"white-space:pre-wrap;max-width:420px\">" ++ escapeHtml r.message
  ++ "</td>\n        <td style=\"white-space:pre-wrap;max-width:300px\">" ++ escapeHtml r.extra
  ++ "</td>\n      </tr>"

/-- The first variant's admin page up to the interpolated `${htmlRows}`
(lines 157-170; CSS braces written with character escapes). -/
def adminPageHeadV1 : String :=
  "<!doctype html><html><head><meta charset=\"utf-8\"><title>SVRX Suggestions — Admin</title>\n      <style>\n        body\x7bfont-family:Inter,system-ui,sans-serif;background:#061226;color:#e8f5ff;padding:20px;margin:0\x7d\n        table\x7bwidth:100%;border-collapse:collapse;margin-top:10px\x7d\n        th,td\x7bborder:1px solid rgba(255,255,255,0.1);padding:8px;font-size:13px;vertical-align:top\x7d\n        th\x7bbackground:rgba(255,255,255,0.05);text-align:left\x7d\n        tr:nth-child(even)\x7bbackground:rgba(255,255,255,0.02)\x7d\n        .header\x7bdisplay:flex;align-items:center;justify-content:space-between\x7d\n        .header h1\x7bfont-size:20px;margin:0;background:linear-gradient(90deg,#2b6ef6,#68a5ff);-webkit-background-clip:text;-webkit-text-fill-color:transparent\x7d\n        button\x7bpadding:8px 12px;border:0;border-radius:8px;background:#2b6ef6;color:#012033;cursor:pointer\x7d\n      </style></head><body>\n      <div class=\"header\"><h1>SVRX Suggestions Dashboard</h1><button onclick=\"location.reload()\">Refresh</button></div>\n      <table><thead><tr><th>ID</th><th>Time</th><th>Type</th><th>Priority</th><th>Name</th><th>Email</th><th>Message</th><th>Extra</th></tr></thead><tbody>\n      "

/-- The first variant's admin page after `${htmlRows}` (line 171). -/
def adminPageFootV1 : String := "\n      </tbody></table></body></html>"

/-- The second variant's admin page up to the interpolated `${rowsHtml}`
(lines 336-352). -/
def adminPageHeadV2 : String :=
  "<!doctype html>\n<html>\n<head><meta charset=\"utf-8\"><title>SVRX Suggestions — Admin</title>\n<style>\nbody\x7bfont-family:Inter,system-ui,sans-serif;background:#061226;color:#e8f5ff;padding:20px\x7d\ntable\x7bwidth:100%;border-collapse:collapse;margin-top:10px\x7d\nth,td\x7bborder:1px solid rgba(255,255,255,0.1);padding:8px;font-size:13px;vertical-align:top\x7d\nth\x7bbackground:rgba(255,255,255,0.05);text-align:left\x7d\ntr:nth-child(even)\x7bbackground:rgba(255,255,255,0.02)\x7d\n.header\x7bdisplay:flex;align-items:center;justify-content:space-between\x7d\n.header h1\x7bfont-size:20px;margin:0;background:linear-gradient(90deg,#2b6ef6,#68a5ff);-webkit-background-clip:text;-webkit-text-fill-color:transparent\x7d\nbutton\x7bpadding:8px 12px;border:0;border-radius:8px;background:#2b6ef6;color:#012033;cursor:pointer\x7d\n</style>\n</head><body>\n<div class=\"header\"><h1>SVRX Suggestions Dashboard</h1><button onclick=\"location.reload()\">Refresh</button></div>\n<table><thead><tr><th>ID</th><th>Time</th><th>Type</th><th>Priority</th><th>Name</th><th>Email</th><th>Message</th><th>Extra</th></tr></thead><tbody>\n"

/-- The second variant's admin page after `${rowsHtml}` (lines 352-354). -/
def adminPageFootV2 : String := "\n</tbody></table>\n</body></html>"

/-- The third variant's admin page up to the interpolated `${tableRows}`
(lines 542-555). -/
def adminPageHeadV3 : String :=
  "<!doctype html>\n<html><head><meta charset=\"utf-8\"><title>SVRX Suggestions — Admin</title>\n<style>\nbody\x7bfont-family:Inter,system-ui,sans-serif;background:#061226;color:#e8f5ff;padding:20px;margin:0\x7d\ntable\x7bwidth:100%;border-collapse:collapse;margin-top:10px\x7d\nth,td\x7bborder:1px solid rgba(255,255,255,0.1);padding:8px;font-size:13px;vertical-align:top\x7d\nth\x7bbackground:rgba(255,255,255,0.05);text-align:left\x7d\ntr:nth-child(even)\x7bbackground:rgba(255,255,255,0.02)\x7d\n.header\x7bdisplay:flex;align-items:center;justify-content:space-between\x7d\n.header h1\x7bfont-size:20px;margin:0;background:linear-gradient(90deg,#2b6ef6,#68a5ff);-webkit-background-clip:text;-webkit-text-fill-color:transparent\x7d\nbutton\x7bpadding:8px 12px;border:0;border-radius:8px;background:#2b6ef6;color:#012033;cursor:pointer\x7d\n</style></head><body>\n<div class=\"header\"><h1>SVRX Suggestions Dashboard</h1><button onclick=\"location.reload()\">Refresh</button></div>\n<table><thead><tr><th>ID</th><th>Time</th><th>Type</th><th>Priority</th><th>Name</th><th>Email</th><th>Message</th><th>Extra</th></tr></thead><tbody>"

/-- The third variant's admin page after `${tableRows}` (lines 555-556). -/
def adminPageFootV3 : String := "</tbody></table>\n</body></html>"

/-- The HTML document rendered by the first variant's `GET /admin`
handler: the page template around the rows joined with `'\n'`. -/
def adminHtmlV1 (iso : Nat → String) (store : List Suggestion) : String :=
  adminPageHeadV1 ++ joinSep "\n" ((adminRowsV1 store).map (renderRowV1 iso)) ++ adminPageFootV1

/-- The HTML document rendered by the second variant's `GET /admin`
handler (rows joined with `'\n'`). -/
def adminHtmlV2 (iso : Nat → String) (store : List Suggestion) : String :=
  adminPageHeadV2 ++ joinSep "\n" ((adminRowsV2 store).map (renderRowV2 iso)) ++ adminPageFootV2

/-- The HTML document rendered by the third variant's `GET /admin`
handler (rows joined with `''`). -/
def adminHtmlV3 (iso : Nat → String) (store : List Suggestion) : String :=
  adminPageHeadV3 ++ joinSep "" ((adminRowsV3 store).map (renderRowV3 iso)) ++ adminPageFootV3

/-- The HTTP response of a `GET /admin` request: a 401 challenge or a 403
denial from the middleware (each with its `WWW-Authenticate` value and
body text), or the rendered page. -/
inductive AdminResponse where
  | unauthorized (wwwAuthenticate : String) (body : String)
  | forbidden (wwwAuthenticate : String) (body : String)
  | page (html : String)
deriving DecidableEq

/-- Whether an admin response is the rendered page (a 200 reply). -/
def AdminResponse.isPage : AdminResponse → Bool
  | .page _ => true
  | _ => false

/-- `GET /admin` of the first variant (line 140): `basicAuth` runs first,
and only `.proceed` reaches the rendering handler. -/
def adminV1 (adminUser adminPass : String) (auth : Option String) (iso : Nat → String)
    (store : List Suggestion) : AdminResponse :=
  match basicAuth adminUser adminPass auth with
  | .challenge401 h => .unauthorized h "Authentication required."
  | .denied403 h => .forbidden h "Access denied."
  | .proceed => .page (adminHtmlV1 iso store)

/-- `GET /admin` of the second variant (line 320): the route has no
middleware, so the page is rendered whatever the `auth` data of the
request. -/
def adminV2 (auth : Option String) (iso : Nat → String) (store : List Suggestion) :
    AdminResponse :=
  .page (adminHtmlV2 iso store)

/-- `GET /admin` of the third variant (line 525): guarded by the same
`basicAuth` middleware as the first variant. -/
def adminV3 (adminUser adminPass : String) (auth : Option String) (iso : Nat → String)
    (store : List Suggestion) : AdminResponse :=
  match basicAuth adminUser adminPass auth with
  | .challenge401 h => .unauthorized h "Authentication required."
  | .denied403 h => .forbidden h "Access denied."
  | .proceed => .page (adminHtmlV3 iso store)

/-- Base-36 digit characters as produced by JavaScript
`Number#toString(36)`: `0`-`9` then `a`-`z`. -/
def digitChar36 (d : Nat) : Char :=
  if d < 10 then Char.ofNat (48 + d) else Char.ofNat (87 + d)

/-- Digit accumulation behind `Number#toString(36)` on a non-negative
integer. -/
def toBase36Aux (n : Nat) (acc : List Char) : List Char :=
  if n < 36 then digitChar36 n :: acc
  else toBase36Aux (n / 36) (digitChar36 (n % 36) :: acc)
termination_by n
decreasing_by exact Nat.div_lt_self (by omega) (by omega)

/-- `Date.now().toString(36)`: the millisecond timestamp rendered in base
36. -/
def toBase36 (n : Nat) : String := String.mk (toBase36Aux n [])

/-- `Math.random().toString(36).slice(2, 8)`: the random draw is modelled
by the base-36 fraction digits of its rendering `0.d1d2...` (an empty
list when the rendering has no fraction part), and `slice(2, 8)` keeps at
most the first six of them. -/
def randSuffix (fracDigits : List Nat) : String :=
  String.mk ((fracDigits.map digitChar36).take 6)

/-- `makeId` (lines 68-70, 259-261 and 448-450, textually identical):
time component in base 36, a dash, and the random suffix. -/
def makeId (now : Nat) (fracDigits : List Nat) : String :=
  toBase36 now ++ "-" ++ randSuffix fracDigits

/-- The JSON body of a `GET /health` reply. -/
structure HealthResponse where
  status : String
  time : String
deriving DecidableEq

/-- Modelled from the spec: no `GET /health` route exists in
`src/server.js`; the spec describes one in the latest variant, returning
`{status:"ok", time: <ISO timestamp>}` unconditionally.  `iso now` stands
for `new Date().toISOString()` and `dbUp` for the state of the database
connection, which the handler ignores. -/
def healthHandler (iso : Nat → String) (now : Nat) (dbUp : Bool) : HealthResponse :=
  ⟨"ok", iso now⟩

/-- `p` occurs as a contiguous run inside `s`. -/
def OccursIn (p s : List Char) : Prop := ∃ a b, s = a ++ (p ++ b)

/-- `needle` occurs as a contiguous substring of `hay`. -/
def containsStr (needle hay : String) : Prop := OccursIn needle.data hay.data

/-- A demonstration record with the earlier timestamp. -/
def demoA : Suggestion := ⟨"a1", "Ada", "ada@example.com", "bug", "it crashed", "", "", 1⟩

/-- A demonstration record with the later timestamp. -/
def demoB : Suggestion := ⟨"b1", "Bob", "bob@example.com", "idea", "add dark mode", "", "", 2⟩

/-- A demonstration record whose message is an HTML injection attempt. -/
def demoR : Suggestion :=
  ⟨"r1", "Mallory", "m@example.com", "bug", "<script>", "", "", 5⟩

theorem sanitizeString_str (s : String) : sanitizeString (.str s) = jsTrim s := by
  by_cases h : s = ""
  · subst h; rfl
  · simp [sanitizeString, jsFalsy, jsToString, h]

/-- C9: the `GET /health` route (modelled from the spec; no such route
exists under `src/`) replies `{status:"ok", time: <ISO timestamp>}`
whatever the state of the database. -/
theorem health_always_ok (iso : Nat → String) (now : Nat) (dbUp : Bool) :
    healthHandler iso now dbUp = ⟨"ok", iso now⟩ ∧
    (healthHandler iso now dbUp).status = "ok" :=
  ⟨rfl, rfl⟩

/-- C2: when any of the four required fields sanitizes to the empty string
(in particular when it is absent or blank after trimming), every
variant's `POST /api/feedback` handler returns its 400 missing-fields
rejection and leaves the stored suggestions unchanged. -/
theorem missing_field_rejected_all_variants (p : Payload) (id : String) (now : Nat)
    (store : List Suggestion)
    (h1 : sanitize p.name = "" ∨ sanitize p.email = "" ∨ sanitize p.typ = "" ∨
      sanitize p.message = "")
    (h2 : sanitizeString p.name = "" ∨ sanitizeString p.email = "" ∨
      sanitizeString p.typ = "" ∨ sanitizeString p.message = "") :
    postFeedbackV1 p id now store = (.badRequest "Missing required fields.", store) ∧
    postFeedbackV2 p id now store =
      (.badRequest "Missing required fields (name, email, type, message).", store) ∧
    postFeedbackV3 p id now store = (.badRequest "Missing required fields.", store) := by
  refine ⟨?_, ?_, ?_⟩
  · simp only [postFeedbackV1]
    rw [if_pos h1]
  · simp only [postFeedbackV2]
    rw [if_pos h2]
  · simp only [postFeedbackV3]
    rw [if_pos h1]

/-- Witness for C2 at a concrete blank-name submission. -/
theorem missing_field_rejected_all_variants_witness :
    sanitize (JsValue.str " ") = "" ∧
    postFeedbackV1 ⟨.str " ", .str "a@b.c", .str "bug", .str "hello", .undefined, .undefined⟩
      "k" 7 [] = (.badRequest "Missing required fields.", []) :=
  ⟨by decide,
    (missing_field_rejected_all_variants _ "k" 7 [] (by decide) (by decide)).1⟩

/-- C4 counterexample: the second variant's sanitization maps the
non-string value `42` to `"42"`, not to the empty string. -/
theorem sanitizeString_coerces_number :
    sanitizeString (.num 42) = "42" ∧ sanitizeString (.num 42) ≠ "" := by
  constructor <;> decide

/-- C4 (amended): the first and third variants' `sanitize` maps every
non-string or absent field to the empty string before the required-field
checks; the second variant's `sanitizeString` does so only for falsy
values, and coerces truthy non-strings with `String(...)` before
trimming. -/
theorem sanitize_nonstring_empty (v : JsValue) (h : ∀ s : String, v ≠ .str s) :
    sanitize v = "" ∧
    (jsFalsy v = true → sanitizeString v = "") ∧
    (jsFalsy v = false → sanitizeString v = jsTrim (jsToString v)) := by
  refine ⟨?_, ?_, ?_⟩
  · cases v with
    | str s => exact absurd rfl (h s)
    | undefined => rfl
    | null => rfl
    | num n => rfl
    | bool b => rfl
    | obj => rfl
  · intro hf; simp [sanitizeString, hf]
  · intro hf; simp [sanitizeString, hf]

/-- Witness for C4 at the non-string value `42`. -/
theorem sanitize_nonstring_empty_witness :
    sanitize (JsValue.num 42) = "" ∧
    sanitizeString (JsValue.num 42) = jsTrim (jsToString (JsValue.num 42)) :=
  ⟨(sanitize_nonstring_empty (.num 42) fun s h => JsValue.noConfusion h).1,
    (sanitize_nonstring_empty (.num 42) fun s h => JsValue.noConfusion h).2.2 (by decide)⟩

/-- C1 counterexample: the third variant's handler accepts a two-character
message and inserts it — it has no minimum-length check, so the claim
fails for that variant. -/
theorem variant3_accepts_short_message :
    postFeedbackV3 ⟨.str "Ada", .str "ada@example.com", .str "bug", .str "ab", .undefined, .undefined⟩
      "id0" 9 [] =
    (.okId "id0", [⟨"id0", "Ada", "ada@example.com", "bug", "ab", "", "", 9⟩]) := by
  decide

/-- C1 (amended): for a submission whose four required fields are
non-empty after trimming and whose trimmed message is shorter than three
characters, the first and second variants reject with `Message too
short.` and perform no insert; the third variant has no length check and
inserts the record. -/
theorem short_message_rejected_v1_v2 (n e t m : String) (i x : JsValue) (id : String)
    (now : Nat) (store : List Suggestion)
    (h1 : jsTrim n ≠ "") (h2 : jsTrim e ≠ "") (h3 : jsTrim t ≠ "") (h4 : jsTrim m ≠ "")
    (h5 : (jsTrim m).length < 3) :
    postFeedbackV1 ⟨.str n, .str e, .str t, .str m, i, x⟩ id now store =
      (.badRequest "Message too short.", store) ∧
    postFeedbackV2 ⟨.str n, .str e, .str t, .str m, i, x⟩ id now store =
      (.badRequest "Message too short.", store) ∧
    postFeedbackV3 ⟨.str n, .str e, .str t, .str m, i, x⟩ id now store =
      (.okId id, store ++ [⟨id, jsTrim n, jsTrim e, jsTrim t, jsTrim m,
        sanitize (jsOr i (.str "")), sanitize (jsOr x (.str "")), now⟩]) := by
  refine ⟨?_, ?_, ?_⟩
  · simp only [postFeedbackV1, sanitize]
    rw [if_neg (by simp [h1, h2, h3, h4]), if_pos h5]
  · simp only [postFeedbackV2, sanitizeString_str]
    rw [if_neg (by simp [h1, h2, h3, h4]), if_pos h5]
  · simp only [postFeedbackV3, sanitize]
    rw [if_neg (by simp [h1, h2, h3, h4])]

/-- Witness for C1 at a concrete two-character message. -/
theorem short_message_rejected_v1_v2_witness :
    jsTrim "ab" ≠ "" ∧ (jsTrim "ab").length < 3 ∧
    postFeedbackV1 ⟨.str "Ada", .str "ada@example.com", .str "bug", .str "ab", .undefined, .undefined⟩
      "id1" 3 [] = (.badRequest "Message too short.", []) :=
  ⟨by decide, by decide,
    (short_message_rejected_v1_v2 "Ada" "ada@example.com" "bug" "ab" .undefined .undefined "id1" 3 []
      (by decide) (by decide) (by decide) (by decide) (by decide)).1⟩

/-- C6: `GET /api/suggestions` returns at most 1000 records, the admin
views render at most 300 (variants 1 and 3) or 200 (variant 2) rows, and
`listRecent` never exceeds its cap, whatever the table holds. -/
theorem listing_caps (store : List Suggestion) :
    (apiSuggestions store).length ≤ 1000 ∧ (adminRowsV1 store).length ≤ 300 ∧
    (adminRowsV2 store).length ≤ 200 ∧ (adminRowsV3 store).length ≤ 300 ∧
    ∀ limit, (listRecent store limit).length ≤ limit :=
  ⟨List.length_take_le _ _, List.length_take_le _ _, List.length_take_le _ _,
    List.length_take_le _ _, fun _ => List.length_take_le _ _⟩

theorem listRecent_pairwise (store : List Suggestion) (limit : Nat) :
    List.Pairwise createdDesc (listRecent store limit) :=
  List.Pairwise.sublist (List.take_sublist _ _) (List.sorted_insertionSort createdDesc store)

/-- C5: every listing result — the API listing and each admin view — is
ordered by `created_at` descending: along the returned list the
timestamps never increase, so a record with a strictly later
`created_at` can only appear at a strictly earlier position. -/
theorem listing_sorted_desc (store : List Suggestion) (limit : Nat) :
    List.Pairwise createdDesc (listRecent store limit) ∧
    List.Pairwise createdDesc (apiSuggestions store) ∧
    List.Pairwise createdDesc (adminRowsV1 store) ∧
    List.Pairwise createdDesc (adminRowsV2 store) ∧
    List.Pairwise createdDesc (adminRowsV3 store) ∧
    ∀ (i j : Fin (listRecent store limit).length),
      ((listRecent store limit).get i).created_at <
        ((listRecent store limit).get j).created_at → (j : Nat) < (i : Nat) := by
  refine ⟨listRecent_pairwise store limit, listRecent_pairwise store 1000,
    listRecent_pairwise store 300, listRecent_pairwise store 200,
    listRecent_pairwise store 300, ?_⟩
  intro i j hlt
  rcases Nat.lt_trichotomy (j : Nat) (i : Nat) with h | h | h
  · exact h
  · exact absurd hlt (by rw [Fin.ext h.symm]; exact lt_irrefl _)
  · have hp := List.pairwise_iff_get.mp (listRecent_pairwise store limit) i j h
    exact absurd hlt (by simp only [createdDesc] at hp; omega)

/-- Witness for C5: with the earlier record `demoA` and the later
`demoB`, `listRecent 2` returns `demoB` first. -/
theorem listing_sorted_desc_witness :
    listRecent [demoA, demoB] 2 = [demoB, demoA] ∧ (0 : Nat) < 1 :=
  ⟨by decide,
    (listing_sorted_desc [demoA, demoB] 2).2.2.2.2.2 ⟨1, by decide⟩ ⟨0, by decide⟩ (by decide)⟩

theorem splitColonAux_no_colon :
    ∀ (cs acc : List Char), ':' ∉ acc → ∀ l ∈ splitColonAux cs acc, ':' ∉ l := by
  intro cs
  induction cs with
  | nil =>
    intro acc hacc l hl
    rw [splitColonAux] at hl
    simp only [List.mem_singleton] at hl
    subst hl
    simpa using hacc
  | cons c cs ih =>
    intro acc hacc l hl
    rw [splitColonAux] at hl
    by_cases hc : c = ':'
    · rw [if_pos hc] at hl
      rcases List.mem_cons.mp hl with h | h
      · subst h; simpa using hacc
      · exact ih [] (by simp) l h
    · rw [if_neg hc] at hl
      refine ih (c :: acc) ?_ l hl
      simp only [List.mem_cons]
      rintro (h | h)
      · exact hc h.symm
      · exact hacc h

/-- C10: `basicAuth` destructures `creds.split(':')` into `[user, pass]`,
so `pass` never contains a colon; with a configured admin password that
contains a colon, every request carrying Basic credentials — including
the exactly matching pair, which decodes to `user ++ ":" ++ pass` — is
denied with 403. -/
theorem colon_password_always_denied (adminU adminP : String) (hp : ':' ∈ adminP.data) :
    (∀ creds : String, basicAuth adminU adminP (some creds) =
      .denied403 "Basic realm=\"SVRX Admin\"") ∧
    basicAuth adminU adminP (some (adminU ++ ":" ++ adminP)) =
      .denied403 "Basic realm=\"SVRX Admin\"" := by
  have key : ∀ creds : String, ¬ ((splitColon creds)[0]? = some adminU.data ∧
      (splitColon creds)[1]? = some adminP.data) := by
    intro creds h
    have hmem : adminP.data ∈ splitColon creds := List.getElem?_mem h.2
    exact splitColonAux_no_colon creds.data [] (by simp) adminP.data hmem hp
  have hall : ∀ creds : String, basicAuth adminU adminP (some creds) =
      .denied403 "Basic realm=\"SVRX Admin\"" := by
    intro creds
    simp only [basicAuth]
    rw [if_neg (key creds)]
  exact ⟨hall, hall _⟩

/-- Witness for C10: configured password `p:w`; the exactly matching
Basic credentials decode to `admin:p:w` and are still denied. -/
theorem colon_password_always_denied_witness :
    basicAuth "admin" "p:w" (some ("admin" ++ ":" ++ "p:w")) =
      .denied403 "Basic realm=\"SVRX Admin\"" :=
  (colon_password_always_denied "admin" "p:w" (by decide)).2

theorem length_stringMk (l : List Char) : (String.mk l).length = l.length := rfl

theorem toBase36Aux_length :
    ∀ (k n : Nat) (acc : List Char), n < 36 ^ (k + 1) →
      (toBase36Aux n acc).length ≤ (k + 1) + acc.length := by
  intro k
  induction k with
  | zero =>
    intro n acc hn
    have h36 : n < 36 := by simpa using hn
    rw [toBase36Aux, if_pos h36]
    simp only [List.length_cons]
    omega
  | succ k ih =>
    intro n acc hn
    rw [toBase36Aux]
    by_cases h : n < 36
    · rw [if_pos h]
      simp only [List.length_cons]
      omega
    · rw [if_neg h]
      have hdiv : n / 36 < 36 ^ (k + 1) := by
        have h36 : n < 36 ^ (k + 1) * 36 := by
          rw [pow_succ] at hn
          exact hn
        exact (Nat.div_lt_iff_lt_mul (by omega)).mpr h36
      have hrec := ih (n / 36) (digitChar36 (n % 36) :: acc) hdiv
      simp only [List.length_cons] at hrec
      omega

theorem toBase36_length_le (n : Nat) (h : n < 36 ^ 11) : (toBase36 n).length ≤ 11 := by
  have hx := toBase36Aux_length 10 n [] (by simpa using h)
  simpa [toBase36, length_stringMk] using hx

/-- C8: `makeId` is the base-36 rendering of the millisecond clock, a
dash, and at most six random base-36 digits; for every clock value
representable as a JS integer (below `2^53`) the identifier has fewer
than 48 characters and so fits the `VARCHAR(48)` id column. -/
theorem makeId_short (now : Nat) (fracDigits : List Nat) (h : now < 2 ^ 53) :
    makeId now fracDigits = toBase36 now ++ "-" ++ randSuffix fracDigits ∧
    (makeId now fracDigits).length < 48 := by
  refine ⟨rfl, ?_⟩
  have h1 : (toBase36 now).length ≤ 11 :=
    toBase36_length_le now (lt_trans h (by norm_num))
  have h2 : (randSuffix fracDigits).length ≤ 6 := by
    simp only [randSuffix, length_stringMk, List.length_take]
    omega
  have hdash : ("-" : String).length = 1 := rfl
  have hm : (makeId now fracDigits).length =
      (toBase36 now).length + ("-" : String).length + (randSuffix fracDigits).length := by
    simp [makeId, String.length_append]
  omega

/-- Witness for C8 at a realistic millisecond timestamp. -/
theorem makeId_short_witness :
    (1700000000000 : Nat) < 2 ^ 53 ∧
    (makeId 1700000000000 [1, 2, 3, 4, 5, 6, 7]).length < 48 :=
  ⟨by norm_num, (makeId_short 1700000000000 [1, 2, 3, 4, 5, 6, 7] (by norm_num)).2⟩

/-- C3 counterexample: the second variant's `/admin` route has no auth
middleware, so a request with no credentials is answered with the
rendered page rather than 401; and in the gated variants a decoded
credential string whose first two colon-segments match is let through
even though its Basic password `SVRXTOP:x` differs from the configured
`SVRXTOP`. -/
theorem admin_gate_fails_as_stated :
    (adminV2 none (fun _ => "") []).isPage = true ∧
    basicAuth "Fluxieee" "SVRXTOP" (some "Fluxieee:SVRXTOP:x") = .proceed :=
  ⟨rfl, by decide⟩

/-- C3 (amended): in the first and third variants a request with no Basic
credentials is answered 401 with the `WWW-Authenticate` challenge, and a
request with credentials reaches the rendered admin table exactly when
the first two colon-segments of the decoded credential string equal the
configured username and password — otherwise it is answered 403.  The
second variant's admin view has no gate and renders the table for every
request. -/
theorem admin_gate_v1_v3 (adminU adminP : String) (iso : Nat → String)
    (store : List Suggestion) :
    adminV1 adminU adminP none iso store =
      .unauthorized "Basic realm=\"SVRX Admin\"" "Authentication required." ∧
    adminV3 adminU adminP none iso store =
      .unauthorized "Basic realm=\"SVRX Admin\"" "Authentication required." ∧
    (∀ creds : String,
      (((splitColon creds)[0]? = some adminU.data ∧
          (splitColon creds)[1]? = some adminP.data) →
        adminV1 adminU adminP (some creds) iso store = .page (adminHtmlV1 iso store) ∧
        adminV3 adminU adminP (some creds) iso store = .page (adminHtmlV3 iso store)) ∧
      (¬ ((splitColon creds)[0]? = some adminU.data ∧
          (splitColon creds)[1]? = some adminP.data) →
        adminV1 adminU adminP (some creds) iso store =
          .forbidden "Basic realm=\"SVRX Admin\"" "Access denied." ∧
        adminV3 adminU adminP (some creds) iso store =
          .forbidden "Basic realm=\"SVRX Admin\"" "Access denied.")) ∧
    ∀ auth : Option String, adminV2 auth iso store = .page (adminHtmlV2 iso store) := by
  refine ⟨rfl, rfl, ?_, fun _ => rfl⟩
  intro creds
  constructor
  · intro hmatch
    have hb : basicAuth adminU adminP (some creds) = .proceed := by
      simp only [basicAuth]
      rw [if_pos hmatch]
    constructor <;> simp [adminV1, adminV3, hb]
  · intro hmis
    have hb : basicAuth adminU adminP (some creds) =
        .denied403 "Basic realm=\"SVRX Admin\"" := by
      simp only [basicAuth]
      rw [if_neg hmis]
    constructor <;> simp [adminV1, adminV3, hb]

/-- Witness for C3: with the default credentials, matching credentials
reach the page and mismatched ones are denied. -/
theorem admin_gate_v1_v3_witness :
    adminV1 "Fluxieee" "SVRXTOP" (some "Fluxieee:SVRXTOP") (fun _ => "") [] =
      .page (adminHtmlV1 (fun _ => "") []) ∧
    adminV3 "Fluxieee" "SVRXTOP" (some "Fluxieee:wrong") (fun _ => "") [] =
      .forbidden "Basic realm=\"SVRX Admin\"" "Access denied." := by
  have h := admin_gate_v1_v3 "Fluxieee" "SVRXTOP" (fun _ => "") []
  exact ⟨((h.2.2.1 "Fluxieee:SVRXTOP").1 (by decide)).1,
    ((h.2.2.1 "Fluxieee:wrong").2 (by decide)).2⟩

theorem data_escapeHtml (s : String) : (escapeHtml s).data = s.data.flatMap escChar := rfl

theorem escChar_avoid (x : Char) (hx : x = '<' ∨ x = '>' ∨ x = '"') (c : Char) :
    x ∉ escChar c := by
  unfold escChar
  split_ifs with h1 h2 h3 h4
  · rcases hx with h | h | h <;> subst h <;> decide
  · rcases hx with h | h | h <;> subst h <;> decide
  · rcases hx with h | h | h <;> subst h <;> decide
  · rcases hx with h | h | h <;> subst h <;> decide
  · intro he
    simp only [List.mem_singleton] at he
    rcases hx with h | h | h <;> subst h
    · exact h2 he.symm
    · exact h3 he.symm
    · exact h4 he.symm

theorem escapeHtml_no_specials (s : String) :
    '<' ∉ (escapeHtml s).data ∧ '>' ∉ (escapeHtml s).data ∧ '"' ∉ (escapeHtml s).data := by
  refine ⟨?_, ?_, ?_⟩ <;>
    · intro h
      rw [data_escapeHtml] at h
      rcases List.mem_flatMap.mp h with ⟨c, -, hc⟩
      exact escChar_avoid _ (by simp) c hc

theorem escapeHtml_append (u v : String) :
    escapeHtml (u ++ v) = escapeHtml u ++ escapeHtml v := by
  apply String.ext
  simp [data_escapeHtml, String.data_append, List.flatMap_append]

theorem containsStr_self (p : String) : containsStr p p := ⟨[], [], by simp⟩

theorem containsStr_appl (p s a : String) (h : containsStr p s) : containsStr p (a ++ s) := by
  rcases h with ⟨x, y, hxy⟩
  exact ⟨a.data ++ x, y, by simp [String.data_append, hxy]⟩

theorem containsStr_appr (p s a : String) (h : containsStr p s) : containsStr p (s ++ a) := by
  rcases h with ⟨x, y, hxy⟩
  exact ⟨x, y ++ a.data, by simp [String.data_append, hxy]⟩

theorem containsStr_trans (p q s : String) (h1 : containsStr p q) (h2 : containsStr q s) :
    containsStr p s := by
  rcases h1 with ⟨x1, y1, hq⟩
  rcases h2 with ⟨x2, y2, hs⟩
  exact ⟨x2 ++ x1, y1 ++ y2, by simp [hs, hq]⟩

theorem containsStr_escape (p s : String) (h : containsStr p s) :
    OccursIn (p.data.flatMap escChar) (escapeHtml s).data := by
  rcases h with ⟨x, y, hxy⟩
  refine ⟨x.flatMap escChar, y.flatMap escChar, ?_⟩
  rw [data_escapeHtml, hxy]
  simp [List.flatMap_append]

theorem script_escaped (s : String) (h : containsStr "<script>" s) :
    containsStr "&lt;script&gt;" (escapeHtml s) := by
  have h2 := containsStr_escape "<script>" s h
  have he : "<script>".data.flatMap escChar = "&lt;script&gt;".data := by decide
  rw [he] at h2
  exact h2

theorem no_raw_script_in_escaped (s : String) :
    ¬ containsStr "<script>" (escapeHtml s) := by
  rintro ⟨x, y, hxy⟩
  have hlt : '<' ∈ (escapeHtml s).data := by
    rw [hxy]
    refine List.mem_append.mpr (Or.inr (List.mem_append.mpr (Or.inl ?_)))
    decide
  exact (escapeHtml_no_specials s).1 hlt

theorem escMessage_in_renderRowV1 (iso : Nat → String) (r : Suggestion) :
    containsStr (escapeHtml r.message) (renderRowV1 iso r) := by
  unfold renderRowV1
  exact containsStr_appr _ _ _ (containsStr_appr _ _ _ (containsStr_appr _ _ _
    (containsStr_appl _ _ _ (containsStr_self _))))

theorem containsStr_joinSep (sep x : String) :
    ∀ l : List String, x ∈ l → containsStr x (joinSep sep l) := by
  intro l
  induction l with
  | nil => intro hx; cases hx
  | cons y ys ih =>
    intro hx
    cases ys with
    | nil =>
      have hxy : x = y := by simpa using hx
      subst hxy
      exact containsStr_self x
    | cons z zs =>
      rcases List.mem_cons.mp hx with h | h
      · subst h
        exact containsStr_appr _ _ _ (containsStr_appr _ _ _ (containsStr_self x))
      · exact containsStr_appl _ _ _ (ih h)

theorem row_in_adminHtmlV1 (iso : Nat → String) (store : List Suggestion) (r : Suggestion)
    (hr : r ∈ adminRowsV1 store) :
    containsStr (renderRowV1 iso r) (adminHtmlV1 iso store) := by
  unfold adminHtmlV1
  exact containsStr_appr _ _ _ (containsStr_appl _ _ _
    (containsStr_joinSep "\n" _ _ (List.mem_map_of_mem (renderRowV1 iso) hr)))

/-- C7: `escapeHtml` is a character-wise homomorphism sending `&`, `<`,
`>`, `"` to their entities, its output never holds a raw `<`, `>` or
`"`, and the first variant's admin rendering embeds every record field
through it: a stored message containing `<script>` shows up in the page
as the escaped text `&lt;script&gt;`, while the raw `<script>` never
appears in the escaped field. -/
theorem admin_escapes_html (iso : Nat → String) (store : List Suggestion) (r : Suggestion)
    (hr : r ∈ adminRowsV1 store) (hs : containsStr "<script>" r.message) :
    (escapeHtml "&" = "&amp;" ∧ escapeHtml "<" = "&lt;" ∧ escapeHtml ">" = "&gt;" ∧
      escapeHtml "\"" = "&quot;" ∧
      ∀ u v : String, escapeHtml (u ++ v) = escapeHtml u ++ escapeHtml v) ∧
    (∀ s : String, '<' ∉ (escapeHtml s).data ∧ '>' ∉ (escapeHtml s).data ∧
      '"' ∉ (escapeHtml s).data) ∧
    containsStr "&lt;script&gt;" (escapeHtml r.message) ∧
    ¬ containsStr "<script>" (escapeHtml r.message) ∧
    containsStr "&lt;script&gt;" (adminHtmlV1 iso store) := by
  refine ⟨⟨by decide, by decide, by decide, by decide, escapeHtml_append⟩,
    escapeHtml_no_specials, script_escaped _ hs, no_raw_script_in_escaped _, ?_⟩
  exact containsStr_trans _ _ _ (script_escaped _ hs)
    (containsStr_trans _ _ _ (escMessage_in_renderRowV1 iso r) (row_in_adminHtmlV1 iso store r hr))

/-- Witness for C7 with the injection record `demoR`. -/
theorem admin_escapes_html_witness :
    containsStr "&lt;script&gt;" (adminHtmlV1 (fun _ => "1970-01-01T00:00:00.005Z") [demoR]) ∧
    ¬ containsStr "<script>" (escapeHtml demoR.message) := by
  have h := admin_escapes_html (fun _ => "1970-01-01T00:00:00.005Z") [demoR] demoR
    (by decide) ⟨[], [], by decide⟩
  exact ⟨h.2.2.2.2, h.2.2.2.1⟩
